import Mathlib

/-!
Verification of the `hypedmedia` Ray-Ban metadata CLI.

The development shallowly embeds the TypeScript sources:
- `src/metadata-generator.ts` (`MetadataGenerator.generateMetadata`),
- `src/constants.ts` (`RAYBAN_PRESETS`),
- `src/video-processor.ts` (`VideoProcessor.verifyMetadata`, `batchProcess`,
  `getVideoFiles`, `generateOutputPath`),
- `src/ffmpeg-processor.ts` (`FFmpegProcessor.mergeVideos`).

JavaScript strings become `String`, optional values become `Option`,
JS string truthiness (`undefined`/`""` are falsy) is made explicit, and
Node's `path` primitives (external collaborators) are modelled on character
lists. Time is passed in explicitly: `generateMetadata` takes the string
that `new Date().toISOString().replace('T', ' ').substring(0, 19)` would
produce at the moment of the call, and that formatting pipeline is itself
modelled (`jsToISOString`, `defaultDateString`) over a broken-down UTC time.
-/

namespace Hypedmedia

/-! ## JavaScript string primitives -/

/-- JS truthiness of an optional string: `undefined` and `""` are falsy. -/
def tru : Option String → Bool
  | none => false
  | some s => s != ""

/-- JS `x || d` for an optional string `x`: yields `d` when `x` is absent or empty. -/
def strOr : Option String → String → String
  | none, d => d
  | some s, d => if s == "" then d else s

/-- `leadsWith pat l` : `pat` is a prefix of `l` (character lists). -/
def leadsWith : List Char → List Char → Bool
  | [], _ => true
  | _ :: _, [] => false
  | c :: cs, d :: ds => c == d && leadsWith cs ds

/-- `hasSub pat l` : `pat` occurs as a contiguous sublist of `l`. -/
def hasSub (pat : List Char) : List Char → Bool
  | [] => leadsWith pat []
  | c :: cs => leadsWith pat (c :: cs) || hasSub pat cs

/-- JS `s.includes(pat)`. -/
def strIncludes (s pat : String) : Bool := hasSub pat.data s.data

/-- `endsWithChars suf l` : `suf` is a suffix of `l`. -/
def endsWithChars (suf l : List Char) : Bool := leadsWith suf.reverse l.reverse

/-! ## Node `path` model (external collaborator, modelled)

`extnameOf`, `basenameChars`, `dirnameOf`, `joinPath` model Node's
`path.extname`, `path.basename`, `path.dirname` and `path.join` on
POSIX-style paths without trailing separators. -/

/-- Characters of the basename: everything after the last `/`. -/
def basenameChars (l : List Char) : List Char :=
  (l.reverse.takeWhile (fun a => a != '/')).reverse

/-- Characters of the basename after its last dot, reversed. -/
def afterLastDot (b : List Char) : List Char := b.reverse.takeWhile (fun a => a != '.')

/-- Model of `path.extname`: from the last `.` of the basename to the end,
`""` when the basename has no dot or only a leading dot. -/
def extnameOf (p : String) : String :=
  if (afterLastDot (basenameChars p.data)).length + 1 < (basenameChars p.data).length then
    String.mk ('.' :: (afterLastDot (basenameChars p.data)).reverse)
  else ""

/-- Model of `path.basename(p, ext)`: the basename with the suffix `ext`
removed when it is a proper suffix. -/
def basenameNoExt (p ext : String) : String :=
  if (String.mk (basenameChars p.data) != ext)
      && endsWithChars ext.data (basenameChars p.data) then
    String.mk ((basenameChars p.data).take ((basenameChars p.data).length - ext.length))
  else
    String.mk (basenameChars p.data)

/-- Model of `path.dirname`. -/
def dirnameOf (p : String) : String :=
  if '/' ∈ p.data then
    let pre := ((p.data.reverse.dropWhile (fun a => a != '/')).drop 1).reverse
    if pre = [] then "/" else String.mk pre
  else "."

/-- Model of `path.join dir file` for a two-component join. -/
def joinPath (dir file : String) : String :=
  if dir = "" ∨ dir = "." then file
  else if dir.data.getLast? = some '/' then dir ++ file
  else dir ++ "/" ++ file

/-! ## Data model (`src/types.ts`) -/

/-- `RayBanConfig` from `src/types.ts`: every field optional. -/
structure RayBanConfig where
  frontCamera : Option Bool := none
  hasAudio : Option Bool := none
  customDate : Option String := none
  latitude : Option String := none
  longitude : Option String := none
  altitude : Option String := none
  locationName : Option String := none
  customComment : Option String := none
deriving DecidableEq

/-- The resolved metadata record (`RayBanMetadataOptions` in `src/types.ts`,
with every field produced by `generateMetadata` present). -/
structure RayBanMetadataOptions where
  make : String
  model : String
  software : String
  lensModel : String
  createDate : String
  modifyDate : String
  cameraModelName : String
  deviceType : String
  captureMode : String
  audioChannels : Nat
  microphone : String
  fieldOfView : String
  imageStabilization : String
  comment : String
  gpsLatitude : String
  gpsLongitude : String
  gpsAltitude : String
  gpsLatitudeRef : String
  gpsLongitudeRef : String
deriving DecidableEq

/-- A named location preset: `(lat, lon, alt)` decimal strings. -/
structure LocationPreset where
  lat : String
  lon : String
  alt : String
deriving DecidableEq

/-- A camera-type preset from `RAYBAN_PRESETS` in `src/constants.ts`. -/
structure CameraPreset where
  make : String
  model : String
  software : String
  lensModel : String
  cameraModelName : String
  deviceType : String
  captureMode : String
  audioChannels : Nat
  microphone : String
  fieldOfView : String
  imageStabilization : String
  gpsLatitude : String
  gpsLongitude : String
  gpsAltitude : String
  gpsLatitudeRef : String
  gpsLongitudeRef : String
  defaultComment : String
deriving DecidableEq

/-! ## Preset table (`src/constants.ts`) -/

/-- `RAYBAN_PRESETS.FRONT_CAMERA`. -/
def FRONT_CAMERA : CameraPreset where
  make := "Meta"
  model := "Ray-Ban Stories"
  software := "Meta Camera v2.1.4"
  lensModel := "Ray-Ban Stories Front Camera 5.5mm f/2.0"
  cameraModelName := "Meta Ray-Ban Stories"
  deviceType := "Smart Glasses"
  captureMode := "Video"
  audioChannels := 2
  microphone := "Beamforming Array"
  fieldOfView := "87°"
  imageStabilization := "Electronic"
  gpsLatitude := "40.7128"
  gpsLongitude := "-74.0060"
  gpsAltitude := "10"
  gpsLatitudeRef := "N"
  gpsLongitudeRef := "W"
  defaultComment := "Recorded on Meta Ray-Ban Smart Glasses - First-person perspective"

/-- `RAYBAN_PRESETS.MAIN_CAMERA`. -/
def MAIN_CAMERA : CameraPreset where
  make := "Meta"
  model := "Ray-Ban Meta"
  software := "Meta Camera v3.0.1"
  lensModel := "Ray-Ban Stories Wide Angle 12mm f/1.8"
  cameraModelName := "Meta Ray-Ban"
  deviceType := "Smart Glasses Camera"
  captureMode := "Hands-free Video"
  audioChannels := 4
  microphone := "5-microphone array with noise cancellation"
  fieldOfView := "120° ultra-wide"
  imageStabilization := "Optical + Electronic"
  gpsLatitude := "37.7749"
  gpsLongitude := "-122.4194"
  gpsAltitude := "5"
  gpsLatitudeRef := "N"
  gpsLongitudeRef := "W"
  defaultComment := "Captured with Meta Ray-Ban Smart Glasses - Hands-free recording"

/-- `RAYBAN_PRESETS.LOCATIONS` as a lookup over its six own keys. -/
def LOCATIONS : String → Option LocationPreset
  | "new-york" => some ⟨"40.7128", "-74.0060", "10"⟩
  | "san-francisco" => some ⟨"37.7749", "-122.4194", "5"⟩
  | "london" => some ⟨"51.5074", "-0.1278", "15"⟩
  | "tokyo" => some ⟨"35.6762", "139.6503", "20"⟩
  | "paris" => some ⟨"48.8566", "2.3522", "35"⟩
  | "default" => some ⟨"37.7749", "-122.4194", "5"⟩
  | _ => none

/-- The camera-type preset selected by a configuration
(`frontCamera ? RAYBAN_PRESETS.FRONT_CAMERA : RAYBAN_PRESETS.MAIN_CAMERA`
with destructuring default `frontCamera = false`). -/
def cameraPreset (c : RayBanConfig) : CameraPreset :=
  if c.frontCamera.getD false then FRONT_CAMERA else MAIN_CAMERA

/-! ## Metadata resolver (`MetadataGenerator.generateMetadata`) -/

/-- The final `else` of the location chain:
`frontCamera ? RAYBAN_PRESETS.LOCATIONS['new-york'] :
RAYBAN_PRESETS.LOCATIONS['san-francisco']`. -/
def cameraDefaultLocation (c : RayBanConfig) : LocationPreset :=
  if c.frontCamera.getD false then (LOCATIONS "new-york").getD ⟨"", "", ""⟩
  else (LOCATIONS "san-francisco").getD ⟨"", "", ""⟩

/-- The `location` if/else-if/else chain of `generateMetadata`
(`src/metadata-generator.ts`, lines 21-30). -/
def resolveLocation (c : RayBanConfig) : LocationPreset :=
  if tru c.latitude && tru c.longitude then
    { lat := c.latitude.getD "", lon := c.longitude.getD "", alt := strOr c.altitude "5" }
  else if tru c.locationName && (LOCATIONS (c.locationName.getD "")).isSome then
    (LOCATIONS (c.locationName.getD "")).getD ⟨"", "", ""⟩
  else
    cameraDefaultLocation c

/-- `MetadataGenerator.generateMetadata` (`src/metadata-generator.ts`).
`now` is the string the impure expression
`new Date().toISOString().replace('T', ' ').substring(0, 19)` produces at
the call; everything else is verbatim from the source. -/
def generateMetadata (c : RayBanConfig) (now : String) : RayBanMetadataOptions :=
  let preset := cameraPreset c
  let hasAudio := c.hasAudio.getD true
  let date := strOr c.customDate now
  let location := resolveLocation c
  { make := preset.make
    model := preset.model
    software := preset.software
    lensModel := preset.lensModel
    createDate := date
    modifyDate := date
    cameraModelName := preset.cameraModelName
    deviceType := preset.deviceType
    captureMode := preset.captureMode
    audioChannels := if hasAudio then preset.audioChannels else 0
    microphone := if hasAudio then preset.microphone else "None"
    fieldOfView := preset.fieldOfView
    imageStabilization := preset.imageStabilization
    comment := strOr c.customComment preset.defaultComment
    gpsLatitude := location.lat
    gpsLongitude := location.lon
    gpsAltitude := location.alt
    gpsLatitudeRef := preset.gpsLatitudeRef
    gpsLongitudeRef := preset.gpsLongitudeRef }

/-! ## Default-date pipeline (`new Date()` model) -/

/-- A broken-down UTC instant, modelling the JS `Date` the code formats. -/
structure JsDateTime where
  year : Nat
  month : Nat
  day : Nat
  hour : Nat
  minute : Nat
  second : Nat
  ms : Nat
deriving DecidableEq

/-- Zero-pad a numeral to two digits (as `toISOString` renders fields). -/
def pad2 (n : Nat) : String := if n < 10 then "0" ++ toString n else toString n

/-- Zero-pad a numeral to three digits (milliseconds field). -/
def pad3 (n : Nat) : String :=
  if n < 10 then "00" ++ toString n
  else if n < 100 then "0" ++ toString n
  else toString n

/-- Model of JS `Date.prototype.toISOString` for four-digit years:
`YYYY-MM-DDTHH:MM:SS.sssZ`. -/
def jsToISOString (d : JsDateTime) : String :=
  toString d.year ++ "-" ++ pad2 d.month ++ "-" ++ pad2 d.day ++ "T" ++
    pad2 d.hour ++ ":" ++ pad2 d.minute ++ ":" ++ pad2 d.second ++ "." ++ pad3 d.ms ++ "Z"

/-- JS `s.replace('T', ' ')`: replace the first occurrence of `T`. -/
def replaceFirstT : List Char → List Char
  | [] => []
  | c :: cs => if c = 'T' then ' ' :: cs else c :: replaceFirstT cs

/-- The default-date expression of `generateMetadata`:
`new Date().toISOString().replace('T', ' ').substring(0, 19)`
(`substring` counts UTF-16 units; the ISO string is ASCII, so a
character-level `take` coincides). -/
def defaultDateString (d : JsDateTime) : String :=
  String.mk ((replaceFirstT (jsToISOString d).data).take 19)

/-! ## Metadata verification (`VideoProcessor.verifyMetadata`) -/

/-- The four tags `verifyMetadata` consults out of the record returned by
`exiftool.read`; `none` is an absent tag. -/
structure ExifTags where
  make : Option String
  model : Option String
  software : Option String
  lensModel : Option String
deriving DecidableEq

/-- One iteration of the `every` callback
`tags[tag] && tags[tag].includes('Ray-Ban') || tags[tag].includes('Meta')`:
an absent tag makes the `Meta` branch call `includes` on `undefined`,
which throws (`none` here); otherwise the boolean result. -/
def tagCheck : Option String → Option Bool
  | none => none
  | some s => some (((s != "") && strIncludes s "Ray-Ban") || strIncludes s "Meta")

/-- `requiredTags.every (...)` with exception propagation: stops at the
first `false` (result `some false`) or the first throw (result `none`). -/
def everyTag : List (Option String) → Option Bool
  | [] => some true
  | t :: ts =>
    match tagCheck t with
    | none => none
    | some false => some false
    | some true => everyTag ts

/-- `VideoProcessor.verifyMetadata` (`src/video-processor.ts`, lines
167-180) on an already-read tag record: the surrounding `try`/`catch`
turns a thrown `TypeError` into `false`. -/
def verifyMetadata (tags : ExifTags) : Bool :=
  (everyTag [tags.make, tags.model, tags.software, tags.lensModel]).getD false

/-- JS truthiness of an optional tag value, for the spec's formula. -/
def optTruthy (t : Option String) : Bool := t.getD "" != ""

/-- `includes` on an optional tag value, for the spec's formula. -/
def optIncludes (t : Option String) (pat : String) : Bool := strIncludes (t.getD "") pat

/-- The formula the spec (§4.2) gives for the verification predicate:
"(all four fields truthy AND contain 'Ray-Ban') OR (the last field
contains 'Meta')". Stated from the spec's words, for comparison with
`verifyMetadata`. -/
def verifySpecFormula (tags : ExifTags) : Bool :=
  (optTruthy tags.make && optTruthy tags.model && optTruthy tags.software &&
    optTruthy tags.lensModel &&
    optIncludes tags.make "Ray-Ban" && optIncludes tags.model "Ray-Ban" &&
    optIncludes tags.software "Ray-Ban" && optIncludes tags.lensModel "Ray-Ban")
  || optIncludes tags.lensModel "Meta"

/-- Per-field "either brand marker" check: the value of the `every`
callback on a single present or absent tag. -/
def fieldEitherBrand : Option String → Bool
  | none => false
  | some s => ((s != "") && strIncludes s "Ray-Ban") || strIncludes s "Meta"

/-- The tag record `addMetadata` itself writes for the main camera
(`writableTags` built from `MAIN_CAMERA`). -/
def mainWrittenTags : ExifTags :=
  { make := some MAIN_CAMERA.make
    model := some MAIN_CAMERA.model
    software := some MAIN_CAMERA.software
    lensModel := some MAIN_CAMERA.lensModel }

/-! ## Directory enumeration and batch loop (`VideoProcessor`) -/

/-- `VideoProcessor.VIDEO_EXTENSIONS`. -/
def VIDEO_EXTENSIONS : List String := [".mp4", ".mov", ".avi", ".mkv", ".m4v", ".webm"]

/-- `VideoProcessor.isVideoFile`: extension (lower-cased) in the allow-list. -/
def isVideoFile (p : String) : Bool := VIDEO_EXTENSIONS.contains (extnameOf p).toLower

/-- A directory entry as seen by `fs.readdir` + `fs.stat`. -/
structure DirEntry where
  name : String
  isFile : Bool
  size : Nat
deriving DecidableEq

/-- `VideoFile` from `src/types.ts`. -/
structure VideoFile where
  path : String
  name : String
  size : Nat
  extension : String
deriving DecidableEq

/-- `VideoProcessor.getVideoFiles`: keep regular files whose joined path is
a recognized video, non-recursively. -/
def getVideoFiles (directory : String) (entries : List DirEntry) : List VideoFile :=
  (entries.filter (fun e => e.isFile && isVideoFile (joinPath directory e.name))).map
    (fun e =>
      { path := joinPath directory e.name
        name := e.name
        size := e.size
        extension := extnameOf e.name })

/-- Outcome of one `addMetadata` call inside the batch loop: resolved
`true`, resolved `false`, or threw. -/
inductive ProcOutcome where
  | succ
  | fail
  | err
deriving DecidableEq

/-- Whether an outcome increments the `success` counter. -/
def isSucc : ProcOutcome → Bool
  | ProcOutcome.succ => true
  | ProcOutcome.fail => false
  | ProcOutcome.err => false

/-- The `{success, failed, total}` record `batchProcess` returns. -/
structure BatchResult where
  success : Nat
  failed : Nat
  total : Nat
deriving DecidableEq

/-- The `for` loop of `batchProcess`: per file, `success++` on a `true`
result, `failed++` on a `false` result or a thrown error; the loop never
aborts early. -/
def batchLoop (proc : VideoFile → ProcOutcome) : List VideoFile → Nat × Nat
  | [] => (0, 0)
  | v :: vs =>
    let rest := batchLoop proc vs
    if isSucc (proc v) then (rest.1 + 1, rest.2) else (rest.1, rest.2 + 1)

/-- `VideoProcessor.batchProcess` (`src/video-processor.ts`, lines 135-165),
with the per-file processing abstracted as the oracle `proc`. -/
def batchProcess (directory : String) (entries : List DirEntry)
    (proc : VideoFile → ProcOutcome) : BatchResult :=
  let videoFiles := getVideoFiles directory entries
  let counts := batchLoop proc videoFiles
  { success := counts.1, failed := counts.2, total := videoFiles.length }

/-! ## Merge fast-fail (`FFmpegProcessor.mergeVideos`) -/

/-- What a call to `FFmpegProcessor.mergeVideos` does before any external
work: throw, or hand the inputs to the external tool. -/
inductive MergeAction where
  | threw (msg : String)
  | invoked (inputs : List String) (output : String)
deriving DecidableEq

/-- `FFmpegProcessor.mergeVideos` (`src/ffmpeg-processor.ts`): the guard
`if (inputPaths.length < 2) throw new Error('At least 2 videos required
for merging')` runs before the ffmpeg command is built. -/
def ffmpegMergeVideos (inputPaths : List String) (outputPath : String) : MergeAction :=
  if inputPaths.length < 2 then
    MergeAction.threw "At least 2 videos required for merging"
  else
    MergeAction.invoked inputPaths outputPath

/-- `VideoProcessor.mergeVideos` outcome: the `try`/`catch` maps the thrown
error to a `false` result. -/
def mergeVideosResult (inputPaths : List String) (outputPath : String) : Bool :=
  match ffmpegMergeVideos inputPaths outputPath with
  | MergeAction.threw _ => false
  | MergeAction.invoked _ _ => true

/-! ## Default output path (`VideoProcessor.generateOutputPath`) -/

/-- `VideoProcessor.generateOutputPath` (`src/video-processor.ts`, lines
383-391): `<basename><cameraSuffix>[_<additionalSuffix>]<ext>` joined onto
the input's directory. -/
def generateOutputPath (inputPath : String) (frontCamera : Bool)
    (additionalSuffix : Option String) : String :=
  let dir := dirnameOf inputPath
  let name := basenameNoExt inputPath (extnameOf inputPath)
  let ext := extnameOf inputPath
  let cameraSuffix := if frontCamera then "_rayban_front" else "_rayban"
  let fullSuffix :=
    match additionalSuffix with
    | some s => if s != "" then cameraSuffix ++ "_" ++ s else cameraSuffix
    | none => cameraSuffix
  joinPath dir (name ++ fullSuffix ++ ext)

/-! ## Helper lemmas -/

/-- `String.mk` is injective. -/
theorem stringMk_inj {a b : List Char} (h : String.mk a = String.mk b) : a = b := by
  have := congrArg String.data h
  simpa using this

/-- Peeling one tag off the guarded `every` fold. -/
theorem everyTag_cons (t : Option String) (ts : List (Option String)) :
    (everyTag (t :: ts)).getD false = (fieldEitherBrand t && (everyTag ts).getD false) := by
  cases t with
  | none => rfl
  | some s =>
    simp only [everyTag, tagCheck, fieldEitherBrand]
    cases h : ((s != "") && strIncludes s "Ray-Ban") || strIncludes s "Meta" <;> simp

/-- The batch loop's counters are the sizes of the success / non-success
partitions of the file list. -/
theorem batchLoop_eq_filter (proc : VideoFile → ProcOutcome) (l : List VideoFile) :
    batchLoop proc l =
      ((l.filter (fun v => isSucc (proc v))).length,
        (l.filter (fun v => !isSucc (proc v))).length) := by
  induction l with
  | nil => rfl
  | cons v vs ih =>
    simp only [batchLoop, ih]
    cases h : isSucc (proc v) <;> simp [List.filter_cons, h]

/-- Every character of a list avoiding `c` passes the `!= c` scan. -/
theorem all_bne_of_not_mem {c : Char} {l : List Char} (h : c ∉ l) :
    l.all (fun a => a != c) = true := by
  rw [List.all_eq_true]
  intro x hx
  exact bne_iff_ne.mpr (fun he => h (he ▸ hx))

/-- `takeWhile` passes over a block that satisfies the predicate. -/
theorem takeWhile_append_of_all {p : Char → Bool} (a b : List Char) (h : a.all p = true) :
    (a ++ b).takeWhile p = a ++ b.takeWhile p := by
  induction a with
  | nil => rfl
  | cons x xs ih =>
    rw [List.all_cons, Bool.and_eq_true] at h
    simp [List.takeWhile_cons, h.1, ih h.2]

/-- `dropWhile` passes over a block that satisfies the predicate. -/
theorem dropWhile_append_of_all {p : Char → Bool} (a b : List Char) (h : a.all p = true) :
    (a ++ b).dropWhile p = b.dropWhile p := by
  induction a with
  | nil => rfl
  | cons x xs ih =>
    rw [List.all_cons, Bool.and_eq_true] at h
    simp [List.dropWhile_cons, h.1, ih h.2]

/-- A list is a `leadsWith`-prefix of itself extended by anything. -/
theorem leadsWith_self_append (a b : List Char) : leadsWith a (a ++ b) = true := by
  induction a with
  | nil => rfl
  | cons x xs ih => simp [leadsWith, ih]

/-- The basename of `dir ++ '/' ++ rest` is `rest` when `rest` has no slash. -/
theorem basenameChars_concat (d rest : List Char) (h : '/' ∉ rest) :
    basenameChars (d ++ '/' :: rest) = rest := by
  unfold basenameChars
  have hall : (rest.reverse).all (fun a => a != '/') = true :=
    all_bne_of_not_mem (fun hc => h (List.mem_reverse.mp hc))
  rw [List.reverse_append, List.reverse_cons, List.append_assoc, List.singleton_append,
    takeWhile_append_of_all _ _ hall, List.takeWhile_cons]
  simp

/-- The dirname of `dir ++ '/' ++ rest` is `dir` when `rest` has no slash. -/
theorem dirnameOf_concat (d rest : List Char) (hd : d ≠ []) (h : '/' ∉ rest) :
    dirnameOf (String.mk (d ++ '/' :: rest)) = String.mk d := by
  unfold dirnameOf
  have hmem : '/' ∈ (String.mk (d ++ '/' :: rest)).data := by
    simp
  rw [if_pos hmem]
  have hall : (rest.reverse).all (fun a => a != '/') = true :=
    all_bne_of_not_mem (fun hc => h (List.mem_reverse.mp hc))
  show (if _ = ([] : List Char) then "/" else _) = _
  rw [show (String.mk (d ++ '/' :: rest)).data = d ++ '/' :: rest from rfl]
  rw [List.reverse_append, List.reverse_cons, List.append_assoc, List.singleton_append,
    dropWhile_append_of_all _ _ hall, List.dropWhile_cons]
  simp [hd]

/-- The extension of `dir ++ '/' ++ stem ++ '.' ++ e` is `'.' ++ e` when
`stem` is nonempty and `stem`, `e` contain no slash or dot. -/
theorem extnameOf_concat (d stem e : List Char) (hs : stem ≠ [])
    (hs1 : '/' ∉ stem) (he1 : '/' ∉ e) (he2 : '.' ∉ e) :
    extnameOf (String.mk (d ++ '/' :: (stem ++ '.' :: e))) = String.mk ('.' :: e) := by
  unfold extnameOf
  have hrest : '/' ∉ stem ++ '.' :: e := by
    intro hm
    rcases List.mem_append.mp hm with hm | hm
    · exact hs1 hm
    · rcases List.mem_cons.mp hm with hm | hm
      · exact absurd hm (by decide)
      · exact he1 hm
  rw [show (String.mk (d ++ '/' :: (stem ++ '.' :: e))).data = d ++ '/' :: (stem ++ '.' :: e)
      from rfl]
  rw [basenameChars_concat _ _ hrest]
  have hall : (e.reverse).all (fun a => a != '.') = true :=
    all_bne_of_not_mem (fun hc => he2 (List.mem_reverse.mp hc))
  have hafter : afterLastDot (stem ++ '.' :: e) = e.reverse := by
    unfold afterLastDot
    rw [List.reverse_append, List.reverse_cons, List.append_assoc, List.singleton_append,
      takeWhile_append_of_all _ _ hall, List.takeWhile_cons]
    simp
  rw [hafter]
  have hlen : e.reverse.length + 1 < (stem ++ '.' :: e).length := by
    simp [List.length_append]
    exact List.length_pos.mpr hs
  rw [if_pos hlen, List.reverse_reverse]

/-- Stripping the extension off the basename of
`dir ++ '/' ++ stem ++ '.' ++ e` yields `stem`. -/
theorem basenameNoExt_concat (d stem e : List Char) (hs : stem ≠ [])
    (hs1 : '/' ∉ stem) (he1 : '/' ∉ e) :
    basenameNoExt (String.mk (d ++ '/' :: (stem ++ '.' :: e))) (String.mk ('.' :: e))
      = String.mk stem := by
  unfold basenameNoExt
  have hrest : '/' ∉ stem ++ '.' :: e := by
    intro hm
    rcases List.mem_append.mp hm with hm | hm
    · exact hs1 hm
    · rcases List.mem_cons.mp hm with hm | hm
      · exact absurd hm (by decide)
      · exact he1 hm
  rw [show (String.mk (d ++ '/' :: (stem ++ '.' :: e))).data = d ++ '/' :: (stem ++ '.' :: e)
      from rfl]
  rw [basenameChars_concat _ _ hrest]
  have hne : (String.mk (stem ++ '.' :: e) != String.mk ('.' :: e)) = true := by
    refine bne_iff_ne.mpr (fun hemk => ?_)
    have h2 := congrArg List.length (stringMk_inj hemk)
    simp [List.length_append] at h2
    exact hs h2
  have hend : endsWithChars (String.mk ('.' :: e)).data (stem ++ '.' :: e) = true := by
    show endsWithChars ('.' :: e) (stem ++ '.' :: e) = true
    unfold endsWithChars
    rw [List.reverse_append, List.reverse_cons]
    exact leadsWith_self_append _ _
  rw [hne, hend]
  have hlen : (stem ++ '.' :: e).length - (String.mk ('.' :: e)).length = stem.length := by
    show (stem ++ '.' :: e).length - ('.' :: e).length = stem.length
    simp [List.length_append]
  simp only [Bool.and_self, if_true, hlen]
  rw [List.take_left]

/-- `joinPath` on a plain directory is plain concatenation with `/`. -/
theorem joinPath_plain (dir f : String) (h1 : dir ≠ "") (h2 : dir ≠ ".")
    (h3 : dir.data.getLast? ≠ some '/') : joinPath dir f = dir ++ "/" ++ f := by
  unfold joinPath
  rw [if_neg (by tauto), if_neg h3]

/-! ## Claim theorems -/

/-- C1 (counterexample): `verifyMetadata` is not equivalent to the formula
the spec gives for it. On the very tag record the tool writes for the main
camera, the code verifies `true` while the spec's formula "(all four fields
truthy AND contain 'Ray-Ban') OR (last field contains 'Meta')" yields
`false`. -/
theorem verifyMetadata_deviates_from_spec_formula :
    verifyMetadata mainWrittenTags = true ∧ verifySpecFormula mainWrittenTags = false := by
  constructor <;> decide

/-- C1 (amended): `verifyMetadata` checks each of the four required fields
individually: it returns `true` exactly when every field is present and
individually satisfies "(truthy and contains 'Ray-Ban') or contains
'Meta'" — the `&&`/`||` precedence plays out inside each per-field
callback of `every`, not across the whole conjunction. -/
theorem verifyMetadata_eq_fieldwise_check (tags : ExifTags) :
    verifyMetadata tags =
      (fieldEitherBrand tags.make && fieldEitherBrand tags.model &&
        fieldEitherBrand tags.software && fieldEitherBrand tags.lensModel) := by
  obtain ⟨m, md, sw, lm⟩ := tags
  show (everyTag [m, md, sw, lm]).getD false = _
  rw [everyTag_cons, everyTag_cons, everyTag_cons, everyTag_cons]
  show _ = ((fieldEitherBrand m && fieldEitherBrand md && fieldEitherBrand sw &&
    fieldEitherBrand lm))
  simp [everyTag, Bool.and_assoc]

/-- C3 (code bug evaluation): with no custom date, both timestamp fields
are identical but come out in ISO hyphenated shape `YYYY-MM-DD HH:MM:SS`,
not the EXIF shape `YYYY:MM:DD HH:MM:SS` the spec (and the repo's own CLI
help and README examples) promise; a custom date is copied verbatim with
no validation. Evaluated at the UTC instant 2024-01-15T14:30:00.123Z. -/
theorem generateMetadata_default_date_hyphenated :
    (generateMetadata {} (defaultDateString ⟨2024, 1, 15, 14, 30, 0, 123⟩)).createDate
        = "2024-01-15 14:30:00" ∧
    (generateMetadata {} (defaultDateString ⟨2024, 1, 15, 14, 30, 0, 123⟩)).modifyDate
        = (generateMetadata {} (defaultDateString ⟨2024, 1, 15, 14, 30, 0, 123⟩)).createDate ∧
    (generateMetadata { customDate := some "not a real date" } "T").createDate
        = "not a real date" ∧
    (generateMetadata { customDate := some "not a real date" } "T").modifyDate
        = "not a real date" := by
  refine ⟨by decide, rfl, by decide, by decide⟩

/-- C4: disabling audio forces `audioChannels = 0` and
`microphone = "None"` whatever else the configuration holds; otherwise
both fields come from the camera-type preset. -/
theorem generateMetadata_audio_disabled_override (c : RayBanConfig) (now : String) :
    (c.hasAudio = some false →
      (generateMetadata c now).audioChannels = 0 ∧
        (generateMetadata c now).microphone = "None") ∧
    (c.hasAudio ≠ some false →
      (generateMetadata c now).audioChannels = (cameraPreset c).audioChannels ∧
        (generateMetadata c now).microphone = (cameraPreset c).microphone) := by
  constructor
  · intro h
    simp [generateMetadata, h]
  · intro h
    have hA : c.hasAudio.getD true = true := by
      cases hA : c.hasAudio with
      | none => rfl
      | some b =>
        cases b with
        | false => exact absurd hA h
        | true => rfl
    simp [generateMetadata, hA]

/-- C4 witness: a muted front-camera configuration with a named location
resolves to zero channels and the "None" microphone, while an
unspecified audio flag keeps the preset channel count. -/
theorem generateMetadata_audio_disabled_override_witness :
    ((generateMetadata
        { frontCamera := some true, hasAudio := some false, locationName := some "tokyo" }
        "T").audioChannels = 0 ∧
      (generateMetadata
        { frontCamera := some true, hasAudio := some false, locationName := some "tokyo" }
        "T").microphone = "None") ∧
    (generateMetadata { frontCamera := some true } "T").audioChannels
        = (cameraPreset { frontCamera := some true }).audioChannels :=
  ⟨(generateMetadata_audio_disabled_override
      { frontCamera := some true, hasAudio := some false, locationName := some "tokyo" }
      "T").1 rfl,
    ((generateMetadata_audio_disabled_override { frontCamera := some true } "T").2
      (by decide)).1⟩

/-- C6: the merge operation with fewer than two inputs throws
`'At least 2 videos required for merging'` before any external tool
invocation (the guard precedes building the ffmpeg command), and the
caller-facing result is `false`. -/
theorem mergeVideos_fast_fail_under_two_inputs (inputs : List String) (out : String)
    (h : inputs.length ≤ 1) :
    ffmpegMergeVideos inputs out
        = MergeAction.threw "At least 2 videos required for merging" ∧
      mergeVideosResult inputs out = false := by
  have hlt : inputs.length < 2 := by omega
  constructor
  · simp [ffmpegMergeVideos, hlt]
  · simp [mergeVideosResult, ffmpegMergeVideos, hlt]

/-- C6 witness: a single-input merge call throws and resolves to `false`. -/
theorem mergeVideos_fast_fail_under_two_inputs_witness :
    ffmpegMergeVideos ["a.mp4"] "out.mp4"
        = MergeAction.threw "At least 2 videos required for merging" ∧
      mergeVideosResult ["a.mp4"] "out.mp4" = false :=
  mergeVideos_fast_fail_under_two_inputs ["a.mp4"] "out.mp4" (by decide)

/-- C8: the GPS hemisphere reference letters are copied unconditionally
from the camera-type preset, hence always `N`/`W`; named locations with
eastern longitudes (tokyo `139.6503`, paris `2.3522`) therefore carry a
contradictory `W` reference. -/
theorem generateMetadata_gps_refs_unconditional :
    (∀ (c : RayBanConfig) (now : String),
      (generateMetadata c now).gpsLatitudeRef = "N" ∧
        (generateMetadata c now).gpsLongitudeRef = "W") ∧
    (generateMetadata { locationName := some "tokyo" } "T").gpsLongitude = "139.6503" ∧
    (generateMetadata { locationName := some "tokyo" } "T").gpsLongitudeRef = "W" ∧
    (generateMetadata { locationName := some "paris" } "T").gpsLongitude = "2.3522" ∧
    (generateMetadata { latitude := some "48.85", longitude := some "2.35" } "T").gpsLongitude
        = "2.35" := by
  refine ⟨fun c now => ?_, by decide, by decide, by decide, by decide⟩
  unfold generateMetadata cameraPreset
  cases c.frontCamera.getD false <;> simp [FRONT_CAMERA, MAIN_CAMERA]

/-- C9 (counterexample): with only an explicit latitude supplied (and the
front camera selected), the resolved latitude still equals the supplied
lone coordinate — the camera-default preset happens to hold the same
value — refuting "the supplied lone coordinate never appears in the
resolved record". -/
theorem lone_coordinate_can_reappear_via_preset :
    tru ({ frontCamera := some true, latitude := some "40.7128" } : RayBanConfig).latitude
        = true ∧
      ({ frontCamera := some true, latitude := some "40.7128" } : RayBanConfig).longitude
        = none ∧
      (generateMetadata { frontCamera := some true, latitude := some "40.7128" } "T").gpsLatitude
        = "40.7128" := by
  refine ⟨by decide, rfl, by decide⟩

/-- C9 (amended): when explicit latitude and longitude are not both truthy
(one missing, or supplied as the empty string), the explicit-coordinate
branch is skipped entirely: the resolved record equals the one computed
with latitude, longitude and altitude removed from the configuration, so
resolution falls through to the named-location or camera-default rules
(though a preset may coincidentally contain the same coordinate value). -/
theorem generateMetadata_partial_coords_fall_through (c : RayBanConfig) (now : String)
    (h : (tru c.latitude && tru c.longitude) = false) :
    generateMetadata c now
      = generateMetadata { c with latitude := none, longitude := none, altitude := none } now := by
  obtain ⟨fc, ha, cd, la, lo, al, ln, cc⟩ := c
  have h' : (tru la && tru lo) = false := h
  have hloc : resolveLocation ⟨fc, ha, cd, la, lo, al, ln, cc⟩
      = resolveLocation ⟨fc, ha, cd, none, none, none, ln, cc⟩ := by
    unfold resolveLocation
    dsimp only
    rw [h']
    cases hP : (tru ln && (LOCATIONS (ln.getD "")).isSome) <;>
      simp [hP, cameraDefaultLocation, tru]
  simp [generateMetadata, cameraPreset, hloc]

/-- C9 witness: a config with only a (nonempty) latitude resolves exactly
as the empty config does. -/
theorem generateMetadata_partial_coords_fall_through_witness :
    generateMetadata { latitude := some "1.5" } "T"
      = generateMetadata
          { ({ latitude := some "1.5" } : RayBanConfig) with
            latitude := none, longitude := none, altitude := none } "T" :=
  generateMetadata_partial_coords_fall_through { latitude := some "1.5" } "T" (by decide)

/-- C10: a custom comment replaces the preset default exactly when it is a
nonempty string; an absent or empty `customComment` leaves the camera-type
preset's default comment, and a nonempty one is used verbatim, never
concatenated. -/
theorem generateMetadata_comment_replacement (c : RayBanConfig) (now : String) :
    ((c.customComment = none ∨ c.customComment = some "") →
      (generateMetadata c now).comment = (cameraPreset c).defaultComment) ∧
    (∀ s, c.customComment = some s → s ≠ "" →
      (generateMetadata c now).comment = s) := by
  constructor
  · rintro (h | h) <;> simp [generateMetadata, strOr, h]
  · intro s hs hne
    simp [generateMetadata, strOr, hs, hne]

/-- C10 witness: an empty custom comment keeps the main-camera default;
a nonempty one replaces it. -/
theorem generateMetadata_comment_replacement_witness :
    (generateMetadata { customComment := some "" } "T").comment
        = (cameraPreset { customComment := some "" }).defaultComment ∧
      (generateMetadata { customComment := some "hi" } "T").comment = "hi" :=
  ⟨(generateMetadata_comment_replacement { customComment := some "" } "T").1 (Or.inr rfl),
    (generateMetadata_comment_replacement { customComment := some "hi" } "T").2 "hi" rfl
      (by decide)⟩

/-- Splitting a list by a `Bool` predicate preserves total length. -/
theorem length_filter_partition {α : Type} (p : α → Bool) (l : List α) :
    (l.filter p).length + (l.filter (fun v => !p v)).length = l.length := by
  induction l with
  | nil => rfl
  | cons x xs ih =>
    cases h : p x <;> simp [List.filter_cons, h] <;> omega

/-- C2: GPS resolution precedence of `generateMetadata`: (1) both explicit
coordinates truthy → used verbatim with altitude defaulting to `"5"`;
(2) else a truthy location name found in the preset table → that preset
verbatim; (3) else the camera-type default, which is the new-york preset
for the front camera and the san-francisco preset for the main camera. -/
theorem generateMetadata_gps_precedence (c : RayBanConfig) (now : String) :
    ((tru c.latitude && tru c.longitude) = true →
      (generateMetadata c now).gpsLatitude = c.latitude.getD "" ∧
        (generateMetadata c now).gpsLongitude = c.longitude.getD "" ∧
        (generateMetadata c now).gpsAltitude = strOr c.altitude "5") ∧
    (∀ lp, (tru c.latitude && tru c.longitude) = false →
      tru c.locationName = true →
      LOCATIONS (c.locationName.getD "") = some lp →
      (generateMetadata c now).gpsLatitude = lp.lat ∧
        (generateMetadata c now).gpsLongitude = lp.lon ∧
        (generateMetadata c now).gpsAltitude = lp.alt) ∧
    ((tru c.latitude && tru c.longitude) = false →
      (tru c.locationName = false ∨ LOCATIONS (c.locationName.getD "") = none) →
      (generateMetadata c now).gpsLatitude = (cameraDefaultLocation c).lat ∧
        (generateMetadata c now).gpsLongitude = (cameraDefaultLocation c).lon ∧
        (generateMetadata c now).gpsAltitude = (cameraDefaultLocation c).alt) := by
  refine ⟨?_, ?_, ?_⟩
  · intro h
    simp [generateMetadata, resolveLocation, h]
  · intro lp h h2 h3
    simp [generateMetadata, resolveLocation, h, h2, h3]
  · intro h h2
    have hcond : (tru c.locationName && (LOCATIONS (c.locationName.getD "")).isSome) = false := by
      rcases h2 with h2 | h2 <;> simp [h2]
    simp [generateMetadata, resolveLocation, h, hcond]

/-- C2 witness: each of the three precedence branches fires on a concrete
configuration — explicit coordinates verbatim with the `"5"` default
altitude, the london preset, and the front-camera default city. -/
theorem generateMetadata_gps_precedence_witness :
    ((generateMetadata { latitude := some "1.5", longitude := some "-2.5" } "T").gpsLatitude
        = "1.5" ∧
      (generateMetadata { latitude := some "1.5", longitude := some "-2.5" } "T").gpsLongitude
        = "-2.5" ∧
      (generateMetadata { latitude := some "1.5", longitude := some "-2.5" } "T").gpsAltitude
        = "5") ∧
    (generateMetadata { locationName := some "london" } "T").gpsLatitude = "51.5074" ∧
    (generateMetadata { frontCamera := some true } "T").gpsLatitude = "40.7128" := by
  refine ⟨(generateMetadata_gps_precedence
      { latitude := some "1.5", longitude := some "-2.5" } "T").1 (by decide), ?_, ?_⟩
  · exact ((generateMetadata_gps_precedence { locationName := some "london" } "T").2.1
      ⟨"51.5074", "-0.1278", "15"⟩ (by decide) (by decide) (by decide)).1
  · exact ((generateMetadata_gps_precedence { frontCamera := some true } "T").2.2
      (by decide) (Or.inl (by decide))).1

/-- C5: for any directory contents, `batchProcess` reports `total` equal to
the number of recognized video files (regular files with an allow-listed
extension, non-recursively), counts every such file as either a success or
a failure (`success + failed = total` — so one failure never aborts the
loop), and `failed` is exactly the number of files whose processing
resolved `false` or threw. -/
theorem batchProcess_counts_all_files (directory : String) (entries : List DirEntry)
    (proc : VideoFile → ProcOutcome) :
    (batchProcess directory entries proc).total = (getVideoFiles directory entries).length ∧
    (batchProcess directory entries proc).success
        = ((getVideoFiles directory entries).filter (fun v => isSucc (proc v))).length ∧
    (batchProcess directory entries proc).failed
        = ((getVideoFiles directory entries).filter (fun v => !isSucc (proc v))).length ∧
    (batchProcess directory entries proc).success + (batchProcess directory entries proc).failed
        = (batchProcess directory entries proc).total := by
  refine ⟨rfl, ?_, ?_, ?_⟩
  · show (batchLoop proc (getVideoFiles directory entries)).1 = _
    rw [batchLoop_eq_filter]
  · show (batchLoop proc (getVideoFiles directory entries)).2 = _
    rw [batchLoop_eq_filter]
  · show (batchLoop proc (getVideoFiles directory entries)).1
        + (batchLoop proc (getVideoFiles directory entries)).2
        = (getVideoFiles directory entries).length
    rw [batchLoop_eq_filter]
    exact length_filter_partition _ _

/-- C7: with no explicit output path the default is
`<basename>_rayban[_front][_<suffix>]<ext>` in the input's own directory:
concretely `clip.mp4` (main camera, no extra operation) maps to
`clip_rayban.mp4`, and generally a path `d/stem.e` maps to
`d/stem_rayban[_front].e`. -/
theorem generateOutputPath_default_naming :
    generateOutputPath "clip.mp4" false none = "clip_rayban.mp4" ∧
    generateOutputPath "clip.mp4" true none = "clip_rayban_front.mp4" ∧
    generateOutputPath "clip.mp4" false (some "optimized") = "clip_rayban_optimized.mp4" ∧
    (∀ (d stem e : String) (front : Bool),
      d ≠ "" → d ≠ "." → d.data.getLast? ≠ some '/' →
      stem ≠ "" → '/' ∉ stem.data →
      '/' ∉ e.data → '.' ∉ e.data →
      generateOutputPath (d ++ "/" ++ stem ++ "." ++ e) front none
        = d ++ "/" ++ stem ++ (if front then "_rayban_front" else "_rayban") ++ "." ++ e) := by
  refine ⟨by decide, by decide, by decide, ?_⟩
  intro d stem e front hd1 hd2 hd3 hs0 hs1 he1 he2
  have hdne : d.data ≠ [] := fun hnil => hd1 (String.ext hnil)
  have hsne : stem.data ≠ [] := fun hnil => hs0 (String.ext hnil)
  have hrest : '/' ∉ stem.data ++ '.' :: e.data := by
    intro hm
    rcases List.mem_append.mp hm with hm | hm
    · exact hs1 hm
    · rcases List.mem_cons.mp hm with hm | hm
      · exact absurd hm (by decide)
      · exact he1 hm
  have hrepr : d ++ "/" ++ stem ++ "." ++ e
      = String.mk (d.data ++ '/' :: (stem.data ++ '.' :: e.data)) := by
    apply String.ext
    simp [String.data_append, show ("/" : String).data = ['/'] from rfl,
      show ("." : String).data = ['.'] from rfl]
  rw [hrepr]
  unfold generateOutputPath
  dsimp only
  rw [extnameOf_concat _ _ _ hsne hs1 he1 he2,
    basenameNoExt_concat _ _ _ hsne hs1 he1,
    dirnameOf_concat _ _ hdne hrest]
  have hmkd : String.mk d.data = d := String.ext rfl
  have hmks : String.mk stem.data = stem := String.ext rfl
  have hmke : String.mk ('.' :: e.data) = "." ++ e :=
    String.ext (by simp [String.data_append, show ("." : String).data = ['.'] from rfl])
  rw [hmkd, hmks, hmke, joinPath_plain d _ hd1 hd2 hd3]
  cases front <;>
    · apply String.ext
      simp [String.data_append]

/-- C7 witness: a directory-qualified input follows the same composition. -/
theorem generateOutputPath_default_naming_witness :
    generateOutputPath ("videos" ++ "/" ++ "clip" ++ "." ++ "mp4") false none
      = "videos" ++ "/" ++ "clip" ++ "_rayban" ++ "." ++ "mp4" := by
  have h := generateOutputPath_default_naming.2.2.2 "videos" "clip" "mp4" false
    (by decide) (by decide) (by decide) (by decide) (by decide) (by decide) (by decide)
  simpa using h

end Hypedmedia
